import Mathlib

/-!
Shallow embedding of the deployment scripts `script.py` and `lambda.py`.

External cloud calls (S3, CloudFormation) are modelled by passing each
call outcome explicitly as an `Except PyError _` value, and every function
additionally returns the list of requests it issued to the cloud APIs.
Python exceptions are modelled by the `PyError` type: `clientError` stands
for `botocore.exceptions.ClientError` (carrying the error code from
`e.response` and the message text of `str(e)`), `waiterError` for
`botocore.exceptions.WaiterError` (carrying the observed terminal stack
status), and `otherError` for any other Python exception.  `except`
clauses that catch only one exception class are embedded by matching on
the corresponding constructor and re-raising the rest.
-/

/-- Python exception kinds raised by the boto3 calls in `script.py`. -/
inductive PyError where
  | clientError (code msg : String)
  | waiterError (terminalStatus msg : String)
  | otherError (msg : String)
deriving DecidableEq, Repr

/-- Text of `str(e)` for an exception, used by the `in str(e)` checks. -/
def PyError.text : PyError → String
  | .clientError _ m => m
  | .waiterError _ m => m
  | .otherError m => m

/-- Test whether the first character list starts the second one. -/
def charsStartWith : List Char → List Char → Bool
  | [], _ => true
  | _ :: _, [] => false
  | a :: as, b :: bs => a == b && charsStartWith as bs

/-- Test whether the first character list occurs inside the second. -/
def charsOccurIn : List Char → List Char → Bool
  | sub, [] => sub.isEmpty
  | sub, c :: cs => charsStartWith sub (c :: cs) || charsOccurIn sub cs

/-- Embedding of the Python `sub in s` substring test on strings. -/
def strContainsSub (s sub : String) : Bool :=
  charsOccurIn sub.toList s.toList

/-- Requests issued to the S3 API by `script.py`.  The Boolean on
`uploadFile` records whether `ExtraArgs={ACL: private}` was passed. -/
inductive S3Request where
  | headBucket (bucket : String)
  | createBucket (bucket region : String)
  | headObject (bucket key : String)
  | uploadFile (path bucket key : String) (aclPrivate : Bool)
deriving DecidableEq, Repr

/-- Requests issued to the CloudFormation API by `script.py`. -/
inductive CfnRequest where
  | describeStacks (stackName : String)
  | createStack (stackName templateBody : String)
      (capabilities : List String) (parameters : List (String × String))
  | updateStack (stackName templateBody : String)
      (capabilities : List String) (parameters : List (String × String))
deriving DecidableEq, Repr

/-- Waiter kinds requested from `cloudformation.get_waiter`. -/
inductive WaiterKind where
  | stackUpdateComplete
  | stackCreateComplete
deriving DecidableEq, Repr

/-- Interactions with the CloudFormation waiter machinery:
obtaining a waiter and blocking on `waiter.wait(StackName=...)`. -/
inductive CfnWaitEvent where
  | getWaiter (kind : WaiterKind)
  | wait (kind : WaiterKind) (stackName : String)
deriving DecidableEq, Repr

/-- Embedding of `check_stack_exists` (script.py lines 73-82).
`describeResult` is the outcome of `cloudformation.describe_stacks`.
On success it returns `true`; a `ClientError` whose message contains
`does not exist` yields `false`; any other error is re-raised. -/
def check_stack_exists (describeResult : Except PyError Unit) :
    Except PyError Bool :=
  match describeResult with
  | .ok _ => .ok true
  | .error (.clientError c m) =>
      if strContainsSub m "does not exist" then .ok false
      else .error (.clientError c m)
  | .error e => .error e

/-- Parameter list passed to both `create_stack` and `update_stack`
in `run_aws_boto3_command` (script.py lines 114-118 and 129-133). -/
def stackParameters (source_bucket destination_bucket lambda_code_bucket : String) :
    List (String × String) :=
  [("SourceBucketName", source_bucket),
   ("DestinationBucketName", destination_bucket),
   ("LambdaCodeBucketName", lambda_code_bucket)]

/-- Embedding of `run_aws_boto3_command` (script.py lines 103-150).
`createResult` and `updateResult` are the outcomes of the
`create_stack` / `update_stack` calls; `templateBody` is the content read
from the template file.  Returns the issued CloudFormation requests and
either the `skip_waiting` flag or the propagated error.  The inner
`except` catches only `ClientError` from `update_stack` and turns a
message containing `No updates are to be performed` into
`skip_waiting = true`; every other error is re-raised (the outer
`except ClientError` also just re-raises). -/
def run_aws_boto3_command (createResult updateResult : Except PyError Unit)
    (stack_name templateBody source_bucket destination_bucket lambda_code_bucket : String)
    (stack_exists : Bool) :
    List CfnRequest × Except PyError Bool :=
  let params := stackParameters source_bucket destination_bucket lambda_code_bucket
  if !stack_exists then
    ([.createStack stack_name templateBody ["CAPABILITY_IAM"] params],
     match createResult with
     | .ok _ => .ok false
     | .error e => .error e)
  else
    ([.updateStack stack_name templateBody ["CAPABILITY_IAM"] params],
     match updateResult with
     | .ok _ => .ok false
     | .error (.clientError c m) =>
         if strContainsSub m "No updates are to be performed" then .ok true
         else .error (.clientError c m)
     | .error e => .error e)

/-- Embedding of `wait_for_stack_creation_or_update` (script.py lines
84-101).  `waitResult` gives the outcome of `waiter.wait` for the waiter
kind actually obtained.  If `skip_waiting` is set the function returns
immediately without touching the API; otherwise it obtains the
update-complete waiter when `stack_exists` and the create-complete
waiter when not, waits, and re-raises any `WaiterError`. -/
def wait_for_stack_creation_or_update (waitResult : WaiterKind → Except PyError Unit)
    (stack_name : String) (stack_exists skip_waiting : Bool) :
    List CfnWaitEvent × Except PyError Unit :=
  if skip_waiting then ([], .ok ())
  else
    let kind := if stack_exists then WaiterKind.stackUpdateComplete
                else WaiterKind.stackCreateComplete
    ([.getWaiter kind, .wait kind stack_name], waitResult kind)

/-- Embedding of `create_s3_bucket_if_not_exists` (script.py lines 43-59).
`headBucketResult` is the outcome of `s3.head_bucket`, `createBucketResult`
the outcome of `s3.create_bucket` when attempted.  Only a `ClientError`
with code `404` drives the create branch; any other error is re-raised. -/
def create_s3_bucket_if_not_exists (headBucketResult createBucketResult : Except PyError Unit)
    (bucket_name region : String) :
    List S3Request × Except PyError Unit :=
  match headBucketResult with
  | .ok _ => ([.headBucket bucket_name], .ok ())
  | .error (.clientError c m) =>
      if c == "404" then
        ([.headBucket bucket_name, .createBucket bucket_name region], createBucketResult)
      else
        ([.headBucket bucket_name], .error (.clientError c m))
  | .error e => ([.headBucket bucket_name], .error e)

/-- Embedding of `upload_zip_to_s3` (script.py lines 61-71).
`headObjectResult` is the outcome of `s3.head_object`, `uploadResult` the
outcome of `s3.upload_file` when attempted.  The `except` clause catches
every `ClientError` from the head call (without inspecting its code) and
then uploads; a non-`ClientError` exception propagates. -/
def upload_zip_to_s3 (headObjectResult uploadResult : Except PyError Unit)
    (bucket_name zip_file_path zip_file_key : String) :
    List S3Request × Except PyError Unit :=
  match headObjectResult with
  | .ok _ => ([.headObject bucket_name zip_file_key], .ok ())
  | .error (.clientError _ _) =>
      ([.headObject bucket_name zip_file_key,
        .uploadFile zip_file_path bucket_name zip_file_key false], uploadResult)
  | .error e => ([.headObject bucket_name zip_file_key], .error e)

/-- Embedding of `upload_file_to_s3` (script.py lines 152-156).
Uploads unconditionally, with `ExtraArgs={ACL: private}`; the `region`
argument is accepted but unused, as in the source. -/
def upload_file_to_s3 (uploadResult : Except PyError Unit)
    (file_path bucket_name file_key _region : String) :
    List S3Request × Except PyError Unit :=
  ([.uploadFile file_path bucket_name file_key true], uploadResult)

/-- Embedding of `zip_lambda_function` (script.py lines 31-41): the zip
step either succeeds or raises; its `except` clause prints and re-raises,
so the outcome passes through unchanged. -/
def zip_lambda_function (zipResult : Except PyError Unit) : Except PyError Unit :=
  zipResult

/-- Embedding of `os.path.basename` on POSIX paths: the part after the
last slash. -/
def basename (p : String) : String :=
  (p.splitOn "/").getLastD p

/-- Command-line arguments parsed by `parse_args` (script.py lines 13-29),
all required strings. -/
structure Args where
  lambda_directory : String
  zip_file_path : String
  lambda_code_bucket : String
  zip_file_key : String
  region : String
  stack_name : String
  template : String
  source_bucket : String
  destination_bucket : String
  test_file : String
deriving DecidableEq, Repr

/-- Outcomes of all external calls a run of `main` can make, passed
explicitly to the embedding. -/
structure Env where
  zipResult : Except PyError Unit
  headBucketResult : Except PyError Unit
  createBucketResult : Except PyError Unit
  headObjectResult : Except PyError Unit
  uploadZipResult : Except PyError Unit
  describeResult : Except PyError Unit
  createResult : Except PyError Unit
  updateResult : Except PyError Unit
  waitResult : WaiterKind → Except PyError Unit
  uploadTestResult : Except PyError Unit

/-- Events observable in a run of `main`: the zip file creation and the
requests issued to the S3 and CloudFormation APIs. -/
inductive Event where
  | zipCreated (directory path : String)
  | s3 (r : S3Request)
  | cfn (r : CfnRequest)
  | cfnWait (e : CfnWaitEvent)
deriving DecidableEq, Repr

/-- Embedding of `main` (script.py lines 158-181; named `script_main` because Lean reserves `main`): runs the steps in
order — zip, ensure code bucket, upload archive, check stack existence,
create/update stack, wait, upload test file — stopping at the first
raised error.  `templateBody` is the content of the template file read
by `run_aws_boto3_command`.  Returns the events of the run in order and
the final outcome. -/
def script_main (args : Args) (templateBody : String) (env : Env) :
    List Event × Except PyError Unit :=
  match zip_lambda_function env.zipResult with
  | .error e => ([], .error e)
  | .ok _ =>
    let zipT := [Event.zipCreated args.lambda_directory args.zip_file_path]
    let bucketStep := create_s3_bucket_if_not_exists env.headBucketResult
      env.createBucketResult args.lambda_code_bucket args.region
    match bucketStep.2 with
    | .error e => (zipT ++ bucketStep.1.map Event.s3, .error e)
    | .ok _ =>
      let uploadStep := upload_zip_to_s3 env.headObjectResult env.uploadZipResult
        args.lambda_code_bucket args.zip_file_path args.zip_file_key
      match uploadStep.2 with
      | .error e => (zipT ++ bucketStep.1.map Event.s3 ++ uploadStep.1.map Event.s3, .error e)
      | .ok _ =>
        let s3T := zipT ++ bucketStep.1.map Event.s3 ++ uploadStep.1.map Event.s3
        let describeT := [Event.cfn (CfnRequest.describeStacks args.stack_name)]
        match check_stack_exists env.describeResult with
        | .error e => (s3T ++ describeT, .error e)
        | .ok stack_exists =>
          let applyStep := run_aws_boto3_command env.createResult env.updateResult
            args.stack_name templateBody args.source_bucket args.destination_bucket
            args.lambda_code_bucket stack_exists
          match applyStep.2 with
          | .error e => (s3T ++ describeT ++ applyStep.1.map Event.cfn, .error e)
          | .ok skip_waiting =>
            let waitStep := wait_for_stack_creation_or_update env.waitResult
              args.stack_name stack_exists skip_waiting
            match waitStep.2 with
            | .error e =>
                (s3T ++ describeT ++ applyStep.1.map Event.cfn
                  ++ waitStep.1.map Event.cfnWait, .error e)
            | .ok _ =>
              let testStep := upload_file_to_s3 env.uploadTestResult args.test_file
                args.source_bucket (basename args.test_file) args.region
              (s3T ++ describeT ++ applyStep.1.map Event.cfn
                ++ waitStep.1.map Event.cfnWait ++ testStep.1.map Event.s3,
               testStep.2)

/-- Copy request issued by the replication lambda: copies `key` from the
source bucket to the destination bucket under the same key. -/
structure CopyRequest where
  sourceBucket : String
  destBucket : String
  key : String
deriving DecidableEq, Repr

/-- Embedding of `lambda_handler` (lambda.py lines 8-13).  `records` is
the list of object keys of `event[Records]` in order; `copyResult` gives
the outcome of each `s3.copy_object` call.  Issues one copy per record,
propagating the first error; on full success returns the status string
`copied` of the returned dict. -/
def lambda_handler (srcBucket destBucket : String)
    (copyResult : String → Except PyError Unit) (records : List String) :
    List CopyRequest × Except PyError String :=
  match records with
  | [] => ([], .ok "copied")
  | k :: rest =>
      match copyResult k with
      | .error e => ([⟨srcBucket, destBucket, k⟩], .error e)
      | .ok _ =>
          let next := lambda_handler srcBucket destBucket copyResult rest
          (⟨srcBucket, destBucket, k⟩ :: next.1, next.2)

/-- Trace of the zip step of `script_main`. -/
def zipTrace (a : Args) : List Event :=
  [Event.zipCreated a.lambda_directory a.zip_file_path]

/-- Bucket-ensuring step of `script_main`, as called there. -/
def bucketStep (a : Args) (env : Env) : List S3Request × Except PyError Unit :=
  create_s3_bucket_if_not_exists env.headBucketResult env.createBucketResult
    a.lambda_code_bucket a.region

/-- Archive-upload step of `script_main`, as called there. -/
def uploadZipStep (a : Args) (env : Env) : List S3Request × Except PyError Unit :=
  upload_zip_to_s3 env.headObjectResult env.uploadZipResult
    a.lambda_code_bucket a.zip_file_path a.zip_file_key

/-- Trace of the stack-existence check of `script_main`. -/
def describeTrace (a : Args) : List Event :=
  [Event.cfn (CfnRequest.describeStacks a.stack_name)]

/-- Stack create-or-update step of `script_main`, as called there. -/
def applyStep (a : Args) (tb : String) (env : Env) (se : Bool) :
    List CfnRequest × Except PyError Bool :=
  run_aws_boto3_command env.createResult env.updateResult a.stack_name tb
    a.source_bucket a.destination_bucket a.lambda_code_bucket se

/-- Completion-wait step of `script_main`, as called there. -/
def waitStep (a : Args) (env : Env) (se sk : Bool) :
    List CfnWaitEvent × Except PyError Unit :=
  wait_for_stack_creation_or_update env.waitResult a.stack_name se sk

/-- Test-object upload step of `script_main`, as called there. -/
def testUploadStep (a : Args) (env : Env) : List S3Request × Except PyError Unit :=
  upload_file_to_s3 env.uploadTestResult a.test_file a.source_bucket
    (basename a.test_file) a.region

/-- Predicate picking out object-existence checks among S3 requests. -/
def isHeadObjectReq : S3Request → Bool
  | .headObject _ _ => true
  | _ => false

/-- Concrete arguments used to exercise the embedding. -/
def argsW : Args :=
  ⟨"lambda-src", "fn.zip", "code-bucket", "fn.zip", "us-east-1",
   "demo", "template.yaml", "src-bucket", "dst-bucket", "dir/test.txt"⟩

/-- Environment in which every external call succeeds. -/
def envOk : Env :=
  ⟨.ok (), .ok (), .ok (), .ok (), .ok (), .ok (), .ok (), .ok (),
   fun _ => .ok (), .ok ()⟩

/-- Claim C1: `check_stack_exists` returns `false` when the provisioning
API reports the stack absent (a `ClientError` whose message contains
`does not exist`), returns `true` when the stack is present (the describe
call succeeds), and re-raises any other API error unchanged. -/
theorem check_stack_exists_spec (r : Except PyError Unit) :
    (∀ u, r = .ok u → check_stack_exists r = .ok true) ∧
    (∀ c m, r = .error (.clientError c m) →
      strContainsSub m "does not exist" = true →
      check_stack_exists r = .ok false) ∧
    (∀ e, r = .error e →
      (∀ c m, e = PyError.clientError c m → strContainsSub m "does not exist" = false) →
      check_stack_exists r = .error e) := by
  refine ⟨?_, ?_, ?_⟩
  · rintro u rfl; rfl
  · rintro c m rfl h
    simp [check_stack_exists, h]
  · rintro e rfl h
    cases e with
    | clientError c m => simp [check_stack_exists, h c m rfl]
    | waiterError s m => rfl
    | otherError m => rfl

/-- Claim C1 witness: evaluation at a present stack, an absent stack, and
an auth failure. -/
theorem check_stack_exists_spec_w :
    check_stack_exists (.ok ()) = .ok true ∧
    check_stack_exists (.error (.clientError "ValidationError"
      "Stack with id demo does not exist")) = .ok false ∧
    check_stack_exists (.error (.clientError "AccessDenied"
      "User is not authorized")) = .error (.clientError "AccessDenied"
      "User is not authorized") :=
  ⟨(check_stack_exists_spec (.ok ())).1 () rfl,
   (check_stack_exists_spec _).2.1 "ValidationError"
     "Stack with id demo does not exist" rfl (by decide),
   (check_stack_exists_spec _).2.2 _ rfl
     (by intro c m h; injection h with h1 h2; subst h2; decide)⟩

/-- Claim C2: on an absent stack (`stack_exists = false`),
`run_aws_boto3_command` issues exactly one create request and no update
request, and whenever it returns a flag at all that flag is
`skip_waiting = false` (meaning applied); in particular it is
`skip_waiting = false` when the create call succeeds. -/
theorem run_aws_create_on_absent (cr ur : Except PyError Unit)
    (sn tb sb db lb : String) :
    (run_aws_boto3_command cr ur sn tb sb db lb false).1
      = [CfnRequest.createStack sn tb ["CAPABILITY_IAM"] (stackParameters sb db lb)] ∧
    (∀ n t c p, CfnRequest.updateStack n t c p ∉
      (run_aws_boto3_command cr ur sn tb sb db lb false).1) ∧
    (cr = .ok () → (run_aws_boto3_command cr ur sn tb sb db lb false).2 = .ok false) ∧
    (∀ b, (run_aws_boto3_command cr ur sn tb sb db lb false).2 = .ok b → b = false) := by
  refine ⟨rfl, ?_, ?_, ?_⟩
  · intro n t c p hmem
    simp [run_aws_boto3_command] at hmem
  · rintro rfl; rfl
  · intro b hb
    cases cr with
    | ok u =>
        simp [run_aws_boto3_command] at hb
        exact hb
    | error e =>
        simp [run_aws_boto3_command] at hb

/-- Claim C2 witness: evaluation at a successful create call. -/
theorem run_aws_create_on_absent_w :
    (run_aws_boto3_command (.ok ()) (.ok ()) "demo" "TB" "sb" "db" "lb" false).2
      = .ok false :=
  (run_aws_create_on_absent (.ok ()) (.ok ()) "demo" "TB" "sb" "db" "lb").2.2.1 rfl

/-- Claim C3: on a present stack, an update failure whose reason text
contains `No updates are to be performed` is benign: the step returns
`skip_waiting = true` and raises no error; every other update error
propagates unchanged as fatal. -/
theorem run_aws_no_updates_benign (cr : Except PyError Unit)
    (sn tb sb db lb : String) :
    (∀ c m, strContainsSub m "No updates are to be performed" = true →
      (run_aws_boto3_command cr (.error (.clientError c m)) sn tb sb db lb true).2
        = .ok true) ∧
    (∀ e, (∀ c m, e = PyError.clientError c m →
        strContainsSub m "No updates are to be performed" = false) →
      (run_aws_boto3_command cr (.error e) sn tb sb db lb true).2 = .error e) := by
  refine ⟨?_, ?_⟩
  · intro c m h
    simp [run_aws_boto3_command, h]
  · intro e h
    cases e with
    | clientError c m => simp [run_aws_boto3_command, h c m rfl]
    | waiterError s m => rfl
    | otherError m => rfl

/-- Claim C3 witness: evaluation at a benign no-updates response and at
an auth failure. -/
theorem run_aws_no_updates_benign_w :
    (run_aws_boto3_command (.ok ()) (.error (.clientError "ValidationError"
      "No updates are to be performed.")) "demo" "TB" "sb" "db" "lb" true).2
      = .ok true ∧
    (run_aws_boto3_command (.ok ()) (.error (.clientError "AccessDenied"
      "User is not authorized")) "demo" "TB" "sb" "db" "lb" true).2
      = .error (.clientError "AccessDenied" "User is not authorized") :=
  ⟨(run_aws_no_updates_benign (.ok ()) "demo" "TB" "sb" "db" "lb").1
     "ValidationError" "No updates are to be performed." (by decide),
   (run_aws_no_updates_benign (.ok ()) "demo" "TB" "sb" "db" "lb").2 _
     (by intro c m h; injection h with h1 h2; subst h2; decide)⟩

/-- Claim C4: on a present stack whose update call succeeds (the template
changed), `run_aws_boto3_command` issues exactly one update request and
returns `skip_waiting = false` (meaning applied). -/
theorem run_aws_update_on_present (cr : Except PyError Unit)
    (sn tb sb db lb : String) :
    (run_aws_boto3_command cr (.ok ()) sn tb sb db lb true).1
      = [CfnRequest.updateStack sn tb ["CAPABILITY_IAM"] (stackParameters sb db lb)] ∧
    (run_aws_boto3_command cr (.ok ()) sn tb sb db lb true).2 = .ok false :=
  ⟨rfl, rfl⟩

/-- Claim C5: with `skip_waiting = true` the wait step returns at once
with an empty interaction trace — no waiter is obtained and no wait call
is made — whatever the stack name, the exists flag and the waiter
behaviour. -/
theorem wait_skip_no_api (wr : WaiterKind → Except PyError Unit)
    (sn : String) (se : Bool) :
    wait_for_stack_creation_or_update wr sn se true = ([], .ok ()) :=
  rfl

/-- Claim C6: with `skip_waiting = false` the wait step obtains the
update-complete waiter when the stack existed and the create-complete
waiter when it did not, blocks on it for the stack name, its outcome is
exactly the waiter outcome, and a `WaiterError` observed at a failure
status propagates as a fatal error carrying that terminal status. -/
theorem wait_uses_waiter_and_propagates (wr : WaiterKind → Except PyError Unit)
    (sn : String) (se : Bool) :
    (wait_for_stack_creation_or_update wr sn se false).1
      = [CfnWaitEvent.getWaiter
           (if se then WaiterKind.stackUpdateComplete else WaiterKind.stackCreateComplete),
         CfnWaitEvent.wait
           (if se then WaiterKind.stackUpdateComplete else WaiterKind.stackCreateComplete) sn] ∧
    (wait_for_stack_creation_or_update wr sn se false).2
      = wr (if se then WaiterKind.stackUpdateComplete else WaiterKind.stackCreateComplete) ∧
    (∀ s m, wr (if se then WaiterKind.stackUpdateComplete else WaiterKind.stackCreateComplete)
        = .error (.waiterError s m) →
      (wait_for_stack_creation_or_update wr sn se false).2
        = .error (.waiterError s m)) := by
  refine ⟨rfl, rfl, ?_⟩
  intro s m h
  simpa [wait_for_stack_creation_or_update] using h

/-- Claim C6 witness: a create-complete waiter observing CREATE_FAILED
makes the wait step raise an error carrying that status. -/
theorem wait_uses_waiter_and_propagates_w :
    (wait_for_stack_creation_or_update
      (fun _ => .error (.waiterError "CREATE_FAILED" "Waiter encountered terminal failure state"))
      "demo" false false).2
      = .error (.waiterError "CREATE_FAILED" "Waiter encountered terminal failure state") :=
  (wait_uses_waiter_and_propagates
    (fun _ => .error (.waiterError "CREATE_FAILED" "Waiter encountered terminal failure state"))
    "demo" false).2.2 "CREATE_FAILED" "Waiter encountered terminal failure state" rfl

/-- Claim C7 counterexample: the test-object upload (`upload_file_to_s3`)
issues its upload unconditionally — its request trace is exactly one
upload and contains no object-existence check — so it is not the case
that every upload is preceded by an existence check and skipped when the
object already exists. -/
theorem upload_test_object_unchecked_cex :
    (upload_file_to_s3 (.ok ()) "dir/test.txt" "src-bucket" "test.txt" "us-east-1").1
      = [S3Request.uploadFile "dir/test.txt" "src-bucket" "test.txt" true] ∧
    ((upload_file_to_s3 (.ok ()) "dir/test.txt" "src-bucket" "test.txt"
        "us-east-1").1.filter isHeadObjectReq) = [] :=
  ⟨rfl, rfl⟩

/-- Claim C7 amended: re-running is idempotent for the code-archive
upload only: `upload_zip_to_s3` issues the object-existence check first
and, when the object already exists (head succeeds), skips the upload so
no overwrite occurs; the test-object upload (`upload_file_to_s3`)
performs no existence check and always uploads. -/
theorem upload_steps_idempotency_amended (ur hr : Except PyError Unit)
    (b p k fp bn fk rg : String) :
    (upload_zip_to_s3 (.ok ()) ur b p k).1 = [S3Request.headObject b k] ∧
    (upload_zip_to_s3 (.ok ()) ur b p k).2 = .ok () ∧
    (upload_zip_to_s3 hr ur b p k).1.head? = some (S3Request.headObject b k) ∧
    (upload_file_to_s3 ur fp bn fk rg).1 = [S3Request.uploadFile fp bn fk true] := by
  refine ⟨rfl, rfl, ?_, rfl⟩
  cases hr with
  | ok u => rfl
  | error e => cases e <;> rfl

/-- Claim C8: evaluation at the failing input.  A `ClientError` with code
`403` (an auth failure, not an absence report) raised by the
object-existence check of `upload_zip_to_s3` is swallowed: the function
proceeds to upload and returns success instead of propagating the error.
By contrast the bucket-existence check of `create_s3_bucket_if_not_exists`
does propagate the same non-404 error, as the claim describes. -/
theorem upload_zip_swallows_auth_error :
    (upload_zip_to_s3 (.error (.clientError "403" "Forbidden")) (.ok ())
      "code-bucket" "fn.zip" "fn.zip").2 = .ok () ∧
    (upload_zip_to_s3 (.error (.clientError "403" "Forbidden")) (.ok ())
      "code-bucket" "fn.zip" "fn.zip").1
      = [S3Request.headObject "code-bucket" "fn.zip",
         S3Request.uploadFile "fn.zip" "code-bucket" "fn.zip" false] ∧
    (create_s3_bucket_if_not_exists (.error (.clientError "403" "Forbidden"))
      (.ok ()) "code-bucket" "us-east-1").2
      = .error (.clientError "403" "Forbidden") := by
  refine ⟨rfl, rfl, ?_⟩
  simp [create_s3_bucket_if_not_exists]

/-- Claim C10: the replication handler issues exactly one copy request
per record, copying each key from the source bucket to the destination
bucket under the same key, and returns the status `copied` whenever no
copy call raises; on an empty record list it returns `copied` without
performing any copy. -/
theorem lambda_handler_spec (src dst : String)
    (cr : String → Except PyError Unit) (records : List String) :
    ((∀ k ∈ records, cr k = .ok ()) →
      lambda_handler src dst cr records
        = (records.map (fun k => ⟨src, dst, k⟩), .ok "copied")) ∧
    lambda_handler src dst cr [] = ([], .ok "copied") := by
  refine ⟨?_, rfl⟩
  intro h
  induction records with
  | nil => rfl
  | cons k rest ih =>
      have hk : cr k = .ok () := h k (by simp)
      have hrest : ∀ x ∈ rest, cr x = .ok () := fun x hx => h x (by simp [hx])
      simp [lambda_handler, hk, ih hrest]

/-- Claim C10 witness: evaluation at a two-record event where every copy
succeeds. -/
theorem lambda_handler_spec_w :
    lambda_handler "src-bucket" "dst-bucket" (fun _ => .ok ()) ["a.txt", "b.txt"]
      = ((["a.txt", "b.txt"]).map
          (fun k => CopyRequest.mk "src-bucket" "dst-bucket" k), .ok "copied") :=
  (lambda_handler_spec "src-bucket" "dst-bucket" (fun _ => .ok ())
    ["a.txt", "b.txt"]).1 (by intro k hk; rfl)

/-- Claim C9: `script_main` runs the steps in the fixed order
package, ensure bucket, upload archive, stack orchestration (existence
check, then apply, then wait), upload test object; the first error raised
by a step terminates the run with exactly the events of the steps already
executed (no later step contributes events and nothing is undone), and
when every step succeeds the event trace is the full concatenation of the
step traces in that order. -/
theorem script_main_sequencing (a : Args) (tb : String) (env : Env) :
    (∀ e, env.zipResult = .error e → script_main a tb env = ([], .error e)) ∧
    (∀ e, env.zipResult = .ok () → (bucketStep a env).2 = .error e →
      script_main a tb env
        = (zipTrace a ++ (bucketStep a env).1.map Event.s3, .error e)) ∧
    (∀ e, env.zipResult = .ok () → (bucketStep a env).2 = .ok () →
      (uploadZipStep a env).2 = .error e →
      script_main a tb env
        = (zipTrace a ++ (bucketStep a env).1.map Event.s3
            ++ (uploadZipStep a env).1.map Event.s3, .error e)) ∧
    (∀ e, env.zipResult = .ok () → (bucketStep a env).2 = .ok () →
      (uploadZipStep a env).2 = .ok () →
      check_stack_exists env.describeResult = .error e →
      script_main a tb env
        = (zipTrace a ++ (bucketStep a env).1.map Event.s3
            ++ (uploadZipStep a env).1.map Event.s3 ++ describeTrace a, .error e)) ∧
    (∀ e se, env.zipResult = .ok () → (bucketStep a env).2 = .ok () →
      (uploadZipStep a env).2 = .ok () →
      check_stack_exists env.describeResult = .ok se →
      (applyStep a tb env se).2 = .error e →
      script_main a tb env
        = (zipTrace a ++ (bucketStep a env).1.map Event.s3
            ++ (uploadZipStep a env).1.map Event.s3 ++ describeTrace a
            ++ (applyStep a tb env se).1.map Event.cfn, .error e)) ∧
    (∀ e se sk, env.zipResult = .ok () → (bucketStep a env).2 = .ok () →
      (uploadZipStep a env).2 = .ok () →
      check_stack_exists env.describeResult = .ok se →
      (applyStep a tb env se).2 = .ok sk →
      (waitStep a env se sk).2 = .error e →
      script_main a tb env
        = (zipTrace a ++ (bucketStep a env).1.map Event.s3
            ++ (uploadZipStep a env).1.map Event.s3 ++ describeTrace a
            ++ (applyStep a tb env se).1.map Event.cfn
            ++ (waitStep a env se sk).1.map Event.cfnWait, .error e)) ∧
    (∀ se sk, env.zipResult = .ok () → (bucketStep a env).2 = .ok () →
      (uploadZipStep a env).2 = .ok () →
      check_stack_exists env.describeResult = .ok se →
      (applyStep a tb env se).2 = .ok sk →
      (waitStep a env se sk).2 = .ok () →
      script_main a tb env
        = (zipTrace a ++ (bucketStep a env).1.map Event.s3
            ++ (uploadZipStep a env).1.map Event.s3 ++ describeTrace a
            ++ (applyStep a tb env se).1.map Event.cfn
            ++ (waitStep a env se sk).1.map Event.cfnWait
            ++ (testUploadStep a env).1.map Event.s3, (testUploadStep a env).2)) := by
  refine ⟨?_, ?_, ?_, ?_, ?_, ?_, ?_⟩
  · intro e h1
    simp [script_main, zip_lambda_function, h1]
  · intro e h1 h2
    simp [script_main, zip_lambda_function, h1, zipTrace, bucketStep, describeTrace,
      uploadZipStep, applyStep, waitStep, testUploadStep] at h2 ⊢
    simp [h2]
  · intro e h1 h2 h3
    simp [script_main, zip_lambda_function, h1, zipTrace, bucketStep, describeTrace,
      uploadZipStep, applyStep, waitStep, testUploadStep] at h2 h3 ⊢
    simp [h2, h3]
  · intro e h1 h2 h3 h4
    simp [script_main, zip_lambda_function, h1, zipTrace, bucketStep, describeTrace,
      uploadZipStep, applyStep, waitStep, testUploadStep] at h2 h3 ⊢
    simp [h2, h3, h4]
  · intro e se h1 h2 h3 h4 h5
    simp [script_main, zip_lambda_function, h1, zipTrace, bucketStep, describeTrace,
      uploadZipStep, applyStep, waitStep, testUploadStep] at h2 h3 h5 ⊢
    simp [h2, h3, h4, h5]
  · intro e se sk h1 h2 h3 h4 h5 h6
    simp [script_main, zip_lambda_function, h1, zipTrace, bucketStep, describeTrace,
      uploadZipStep, applyStep, waitStep, testUploadStep] at h2 h3 h5 h6 ⊢
    simp [h2, h3, h4, h5, h6]
  · intro se sk h1 h2 h3 h4 h5 h6
    simp [script_main, zip_lambda_function, h1, zipTrace, bucketStep, describeTrace,
      uploadZipStep, applyStep, waitStep, testUploadStep] at h2 h3 h5 h6 ⊢
    simp [h2, h3, h4, h5, h6]

/-- Claim C9 witness: in the all-success environment the run executes
every step and ends successfully with the full trace. -/
theorem script_main_sequencing_w :
    script_main argsW "TB" envOk
      = (zipTrace argsW ++ (bucketStep argsW envOk).1.map Event.s3
          ++ (uploadZipStep argsW envOk).1.map Event.s3 ++ describeTrace argsW
          ++ (applyStep argsW "TB" envOk true).1.map Event.cfn
          ++ (waitStep argsW envOk true false).1.map Event.cfnWait
          ++ (testUploadStep argsW envOk).1.map Event.s3,
         (testUploadStep argsW envOk).2) :=
  (script_main_sequencing argsW "TB" envOk).2.2.2.2.2.2 true false
    rfl rfl rfl rfl rfl rfl
